import Mathlib

/-!
Verification of the T2T-C10GX tick-to-trade pipeline against its
natural-language specification.

The definitions below are shallow embeddings of the SystemVerilog source:

* `t2t_pkg.sv`        — enumerations, `crc16_ccitt`
* `risk_gate.sv`      — token bucket, staleness / price-band / token checks,
                        the RISK_DECIDE priority encoder
* `itch_splitter.sv`  — sequence tracking and the stale latch (SPLIT_EMIT)
* `book_tob.sv`       — the BOOK_PROCESS top-of-book update rules
* `dma_pcie_ep.sv`    — `calc_crc16` and the DMA record build (both the
                        `dma_pcie_ep` and the `pcie_dma` variant), and the
                        `pcie_dma` ring index management

Machine integers are modelled as `Nat` with explicit `% 2^w` wherever the
hardware width can actually truncate a value.
-/

namespace T2T

/-- The range of 16-bit fields, 2^16. -/
def M16 : Nat := 65536

/-- The range of 32-bit fields, 2^32. -/
def M32 : Nat := 4294967296

/-- The range of 64-bit fields, 2^64. -/
def M64 : Nat := 18446744073709551616

/-! ## Enumerations from `t2t_pkg.sv` -/

/-- Enumeration `risk_reason_e` from `t2t_pkg.sv`. -/
inductive RiskReason where
  | risk_accept
  | risk_price_band
  | risk_token_bucket
  | risk_position_limit
  | risk_kill_switch
  | risk_stale_data
  | risk_seq_gap
  | risk_halt
  | risk_unknown_symbol
  | risk_reserved
deriving DecidableEq, Repr

/-- Enumeration `itch_msg_type_e` from `t2t_pkg.sv`. -/
inductive ItchMsgType where
  | itch_system_event
  | itch_stock_directory
  | itch_stock_trading_action
  | itch_reg_sho
  | itch_market_participant
  | itch_mwcb_decline
  | itch_mwcb_status
  | itch_ipo_quote
  | itch_add_order
  | itch_add_order_mpid
  | itch_order_executed
  | itch_order_executed_px
  | itch_order_cancel
  | itch_order_delete
  | itch_order_replace
  | itch_trade
  | itch_cross_trade
  | itch_broken_trade
  | itch_noii
  | itch_rpii
  | itch_unknown
deriving DecidableEq, Repr

/-- Enumeration `side_e` from `t2t_pkg.sv`. -/
inductive Side where
  | side_bid
  | side_ask
deriving DecidableEq, Repr

/-! ## Token bucket (`risk_gate.sv`, lines 145–170) -/

/-- Constant `TOKEN_REPLENISH_CYCLES` from `risk_gate.sv` (1 ms at 300 MHz). -/
def TOKEN_REPLENISH_CYCLES : Nat := 300000

/-- The token-bucket registers of `risk_gate.sv`. -/
structure TokenState where
  token_bucket : Nat
  token_replenish_cnt : Nat
deriving DecidableEq, Repr

/-- Per-cycle inputs to the token-bucket `always_ff` block: the configured
rate and cap, and whether an accepted decision is consumed this cycle
(`decision_valid && decision_ready && decision_reg.accept`). -/
structure TokenInput where
  cfg_token_rate : Nat
  cfg_token_max : Nat
  consume : Bool
deriving DecidableEq, Repr

/-- One clock cycle of the token-bucket block in `risk_gate.sv`.  The
replenish branch and the consume branch are two sequential statements in the
same `always_ff`; when both assign `token_bucket` the consume assignment
(executed second) wins, and both read the pre-cycle value. -/
def tokenStep (i : TokenInput) (s : TokenState) : TokenState :=
  let replenished : Nat × Nat :=
    if s.token_replenish_cnt ≥ TOKEN_REPLENISH_CYCLES - 1 then
      (if s.token_bucket < i.cfg_token_max then
         (if s.token_bucket + i.cfg_token_rate > i.cfg_token_max then
            i.cfg_token_max
          else s.token_bucket + i.cfg_token_rate)
       else s.token_bucket, 0)
    else
      (s.token_bucket, s.token_replenish_cnt + 1)
  let bucket : Nat :=
    if i.consume ∧ s.token_bucket > 0 then s.token_bucket - 1
    else replenished.1
  { token_bucket := bucket, token_replenish_cnt := replenished.2 }

/-- Reset state of the token bucket (`rst_n` low clears both registers). -/
def tokenReset : TokenState := { token_bucket := 0, token_replenish_cnt := 0 }

/-- Run the token-bucket block from reset over a sequence of cycles. -/
def tokenRun (is : List TokenInput) : TokenState :=
  is.foldl (fun s i => tokenStep i s) tokenReset

/-- Signal `check_token_ok` from `risk_gate.sv`. -/
def check_token_ok (s : TokenState) : Bool :=
  decide (s.token_bucket > 0)

/-! ## Staleness check (`risk_gate.sv`, lines 230–246) -/

/-- Signal `check_not_stale` from `risk_gate.sv`: the data age in cycles is the
64-bit difference `timestamp_cnt - book_ts`, the threshold is
`cfg_stale_usec * 300` cycles, and the check passes when the age is within
the threshold OR the event's stale flag is clear. -/
def check_not_stale (timestamp_cnt book_ts cfg_stale_usec : Nat)
    (stale : Bool) : Bool :=
  let data_age_cycles := (timestamp_cnt + M64 - book_ts % M64) % M64
  let stale_threshold_cycles := (cfg_stale_usec * 300) % M64
  decide (data_age_cycles ≤ stale_threshold_cycles) || !stale

/-- Signal `check_no_seq_gap` from `risk_gate.sv`. -/
def check_no_seq_gap (stale : Bool) : Bool := !stale

/-- Signal `check_not_killed` from `risk_gate.sv`. -/
def check_not_killed (cfg_kill : Bool) : Bool := !cfg_kill

/-! ## Price-band check (`risk_gate.sv`, lines 193–215) -/

/-- Signal `check_price_band_ok` from `risk_gate.sv`.  `current_price` is the
32-bit-truncated sum of the two 32-bit prices shifted right by one; the
absolute difference and both products are computed in 64-bit unsigned
arithmetic (the products cannot wrap for 32-bit / 16-bit operands). -/
def check_price_band_ok (bid_px ask_px ref_price_reg cfg_price_band_bps :
    Nat) : Bool :=
  let current_price := ((bid_px % M32 + ask_px % M32) % M32) / 2
  let ref_px := ref_price_reg % M32
  let price_diff_abs :=
    if current_price ≥ ref_px then current_price - ref_px
    else ref_px - current_price
  let band_threshold := (ref_px * (cfg_price_band_bps % M16)) % M64
  decide ((price_diff_abs * 10000) % M64 ≤ band_threshold) ||
    decide (ref_px = 0) || decide (cfg_price_band_bps % M16 = 0)

/-- The price-band predicate exactly as the specification words it (§4.7):
`mid = (bid_px + ask_px) / 2` over the integers, passing iff the reference
price is zero, the band is zero, or `|mid − ref| * 10000 ≤ ref * bps`.
Stated only for comparison with `check_price_band_ok`. -/
def spec_price_band_pass (bid_px ask_px ref_price cfg_price_band_bps :
    Nat) : Bool :=
  let mid := (bid_px + ask_px) / 2
  let diff := if mid ≥ ref_price then mid - ref_price else ref_price - mid
  decide (ref_price = 0) || decide (cfg_price_band_bps = 0) ||
    decide (diff * 10000 ≤ ref_price * cfg_price_band_bps)

/-! ## RISK_DECIDE (`risk_gate.sv`, lines 277–300) -/

/-- The six parallel check results entering RISK_DECIDE. -/
structure RiskChecks where
  not_killed : Bool
  not_stale : Bool
  no_seq_gap : Bool
  price_band_ok : Bool
  token_ok : Bool
  position_ok : Bool
deriving DecidableEq, Repr

/-- The RISK_DECIDE state of `risk_gate.sv`: accept iff all six checks pass,
otherwise priority-encode the rejection reason (kill, stale, seq-gap,
price-band, token, position). -/
def riskDecide (c : RiskChecks) : Bool × RiskReason :=
  if c.not_killed && c.not_stale && c.no_seq_gap && c.price_band_ok &&
      c.token_ok && c.position_ok then
    (true, RiskReason.risk_accept)
  else
    (false,
      if !c.not_killed then RiskReason.risk_kill_switch
      else if !c.not_stale then RiskReason.risk_stale_data
      else if !c.no_seq_gap then RiskReason.risk_seq_gap
      else if !c.price_band_ok then RiskReason.risk_price_band
      else if !c.token_ok then RiskReason.risk_token_bucket
      else RiskReason.risk_position_limit)

/-! ## Splitter sequence tracking (`itch_splitter.sv`, SPLIT_EMIT) -/

/-- The sequence-tracking registers of `itch_splitter.sv`: `expected_seq`,
the `stale_latch`, and the `stat_seq_gaps` / `stat_seq_dupes` counters. -/
structure SplitState where
  expected_seq : Nat
  stale_latch : Bool
  stat_seq_gaps : Nat
  stat_seq_dupes : Nat
deriving DecidableEq, Repr

/-- One SPLIT_EMIT transition of `itch_splitter.sv` for a completed message
whose 32-bit big-endian sequence number (bytes 1–4) is `seq`.  When
`cfg_seq_check_en` is set: a larger sequence raises the gap counter and sets
the stale latch, a smaller one raises the dupes counter, and in every case
`expected_seq` is set to `seq + 1`.  The second component is `m_axis_tvalid`
for this message: in SPLIT_EMIT the message is always presented downstream,
whatever the sequence comparison said.  Nothing in the state machine ever
clears `stale_latch` apart from reset. -/
def splitEmitStep (cfg_seq_check_en : Bool) (seq : Nat) (s : SplitState) :
    SplitState × Bool :=
  if cfg_seq_check_en then
    if seq % M32 > s.expected_seq then
      ({ expected_seq := (seq % M32 + 1) % M32, stale_latch := true,
         stat_seq_gaps := (s.stat_seq_gaps + 1) % M32,
         stat_seq_dupes := s.stat_seq_dupes }, true)
    else if seq % M32 < s.expected_seq then
      ({ expected_seq := (seq % M32 + 1) % M32,
         stale_latch := s.stale_latch,
         stat_seq_gaps := s.stat_seq_gaps,
         stat_seq_dupes := (s.stat_seq_dupes + 1) % M32 }, true)
    else
      ({ expected_seq := (seq % M32 + 1) % M32,
         stale_latch := s.stale_latch,
         stat_seq_gaps := s.stat_seq_gaps,
         stat_seq_dupes := s.stat_seq_dupes }, true)
  else (s, true)

/-- Run the SPLIT_EMIT sequence tracking over a list of
`(cfg_seq_check_en, seq)` messages. -/
def splitRun (msgs : List (Bool × Nat)) (s : SplitState) : SplitState :=
  msgs.foldl (fun s m => (splitEmitStep m.1 m.2 s).1) s

/-! ## Book update (`book_tob.sv`, BOOK_PROCESS) -/

/-- Record `book_entry_t` from `book_tob.sv`. -/
structure BookEntry where
  bid_px : Nat
  bid_qty : Nat
  ask_px : Nat
  ask_qty : Nat
  last_update_ts : Nat
  last_trade_px : Nat
  last_trade_qty : Nat
  valid : Bool
deriving DecidableEq, Repr

/-- The fields of `itch_msg_t` (from `t2t_pkg.sv`) consumed by
BOOK_PROCESS. -/
structure ItchMsg where
  msg_type : ItchMsgType
  side : Side
  price : Nat
  qty : Nat
  decode_ts : Nat
deriving DecidableEq, Repr

/-- The BOOK_PROCESS update of `book_tob.sv`, as a function from the entry
read for the message's symbol and the decoded message to the written-back
entry.  `updated_entry` starts as the current entry with `last_update_ts`
and `valid` refreshed, then the per-message-type case statement runs. -/
def bookProcess (current_entry : BookEntry) (msg : ItchMsg) : BookEntry :=
  let u := { current_entry with last_update_ts := msg.decode_ts,
                                valid := true }
  match msg.msg_type with
  | ItchMsgType.itch_add_order | ItchMsgType.itch_add_order_mpid =>
      if msg.side = Side.side_bid then
        if !current_entry.valid ∨ msg.price > current_entry.bid_px ∨
            current_entry.bid_qty = 0 then
          { u with bid_px := msg.price, bid_qty := msg.qty }
        else u
      else
        if !current_entry.valid ∨ msg.price < current_entry.ask_px ∨
            current_entry.ask_qty = 0 then
          { u with ask_px := msg.price, ask_qty := msg.qty }
        else u
  | ItchMsgType.itch_order_executed | ItchMsgType.itch_order_executed_px =>
      if msg.side = Side.side_bid then
        { u with bid_qty := if current_entry.bid_qty > msg.qty then
            current_entry.bid_qty - msg.qty else 0 }
      else
        { u with ask_qty := if current_entry.ask_qty > msg.qty then
            current_entry.ask_qty - msg.qty else 0 }
  | ItchMsgType.itch_order_cancel =>
      if msg.side = Side.side_bid then
        { u with bid_qty := if current_entry.bid_qty > msg.qty then
            current_entry.bid_qty - msg.qty else 0 }
      else
        { u with ask_qty := if current_entry.ask_qty > msg.qty then
            current_entry.ask_qty - msg.qty else 0 }
  | ItchMsgType.itch_order_delete =>
      if msg.side = Side.side_bid then { u with bid_qty := 0 }
      else { u with ask_qty := 0 }
  | ItchMsgType.itch_order_replace =>
      if msg.side = Side.side_bid then
        { u with bid_px := msg.price, bid_qty := msg.qty }
      else
        { u with ask_px := msg.price, ask_qty := msg.qty }
  | ItchMsgType.itch_trade =>
      { u with last_trade_px := msg.price, last_trade_qty := msg.qty }
  | _ => u

/-! ## DMA record build (`dma_pcie_ep.sv` and `pcie_dma.sv`) -/

/-- Record `tob_entry_t` from `t2t_pkg.sv`. -/
structure TobEntry where
  bid_px : Nat
  bid_qty : Nat
  ask_px : Nat
  ask_qty : Nat
  last_update_ts : Nat
  valid : Bool
deriving DecidableEq, Repr

/-- Record `book_event_t` from `t2t_pkg.sv`.  Note that the event does not carry
the triggering message's ITCH sequence number. -/
structure BookEvent where
  ingress_ts : Nat
  book_ts : Nat
  symbol_idx : Nat
  tob : TobEntry
  last_trade_px : Nat
  last_trade_qty : Nat
  tob_changed : Bool
  trade_occurred : Bool
  stale : Bool
  trigger_msg_type : ItchMsgType
deriving DecidableEq, Repr

/-- Record `risk_output_t` from `t2t_pkg.sv`. -/
structure RiskOutput where
  accept : Bool
  reason : RiskReason
  decision_ts : Nat
  book_event : BookEvent
deriving DecidableEq, Repr

/-- Record `dma_record_t` from `t2t_pkg.sv` (64 bytes). -/
structure DmaRecord where
  seq : Nat
  reserved_lo : Nat
  ts_ing : Nat
  ts_dec : Nat
  sym_idx : Nat
  side : Nat
  flags : Nat
  qty : Nat
  price : Nat
  ref_px : Nat
  feature0 : Nat
  feature1 : Nat
  feature2 : Nat
  payload_crc16 : Nat
  pad : Nat
  reserved_hi : Nat
deriving DecidableEq, Repr

/-- The flags byte built by both DMA variants:
`{2'b0, kill, position, token, price_band, stale, accept}`
(bit 0 = accept, bit 1 = stale, bit 2 = price-band, bit 3 = token,
bit 4 = position, bit 5 = kill). -/
def dmaFlags (r : RiskOutput) : Nat :=
  (if r.accept then 1 else 0) +
  2 * (if r.book_event.stale then 1 else 0) +
  4 * (if r.reason = RiskReason.risk_price_band then 1 else 0) +
  8 * (if r.reason = RiskReason.risk_token_bucket then 1 else 0) +
  16 * (if r.reason = RiskReason.risk_position_limit then 1 else 0) +
  32 * (if r.reason = RiskReason.risk_kill_switch then 1 else 0)

/-- The DMA_IDLE record build of `dma_pcie_ep.sv` (lines 193–218),
before the CRC field is filled in DMA_BUILD.  `seq` is the low 32 bits of
the ingress timestamp; the spread `feature0` is the 32-bit wrapping
difference `ask_px - bid_px`; the imbalance `feature1` is likewise the
32-bit wrapping `bid_qty - ask_qty`. -/
def dmaRecordBuild (r : RiskOutput) : DmaRecord :=
  { seq := r.book_event.ingress_ts % M32
  , reserved_lo := 0
  , ts_ing := r.book_event.ingress_ts % M64
  , ts_dec := r.decision_ts % M64
  , sym_idx := r.book_event.symbol_idx % M16
  , side := if r.book_event.trigger_msg_type = ItchMsgType.itch_add_order
      then (if r.book_event.tob.bid_qty % M32 > 0 then 0 else 1) else 0
  , flags := dmaFlags r
  , qty := r.book_event.tob.bid_qty % M32
  , price := r.book_event.tob.bid_px % M32
  , ref_px := r.book_event.tob.ask_px % M32
  , feature0 :=
      (r.book_event.tob.ask_px % M32 + M32 - r.book_event.tob.bid_px % M32)
        % M32
  , feature1 :=
      (r.book_event.tob.bid_qty % M32 + M32 -
        r.book_event.tob.ask_qty % M32) % M32
  , feature2 := r.book_event.last_trade_px % M32
  , payload_crc16 := 0
  , pad := 0
  , reserved_hi := 0 }

/-- The combinational record build of the `pcie_dma` variant
(`pcie_dma.sv`, lines 532–555).  Here `seq` is the symbol index
(commented "Simplified" in the source) and `side` is the TOB valid bit. -/
def pcieDmaRecordBuild (r : RiskOutput) : DmaRecord :=
  { seq := r.book_event.symbol_idx % M16
  , reserved_lo := 0
  , ts_ing := r.book_event.ingress_ts % M64
  , ts_dec := r.decision_ts % M64
  , sym_idx := r.book_event.symbol_idx % M16
  , side := if r.book_event.tob.valid then 1 else 0
  , flags := dmaFlags r
  , qty := r.book_event.tob.bid_qty % M32
  , price := r.book_event.tob.bid_px % M32
  , ref_px := r.book_event.tob.ask_px % M32
  , feature0 :=
      (r.book_event.tob.ask_px % M32 + M32 - r.book_event.tob.bid_px % M32)
        % M32
  , feature1 :=
      (r.book_event.tob.bid_qty % M32 + M32 -
        r.book_event.tob.ask_qty % M32) % M32
  , feature2 := r.book_event.last_trade_px % M32
  , payload_crc16 := 0
  , pad := 0
  , reserved_hi := 0 }

/-! ## Record packing and CRC (`dma_pcie_ep.sv`, lines 164–172 and 224–228) -/

/-- Packing `record_packed`: the 64-byte little-endian layout of `dma_record_t`,
as the list of bytes 0..63 (byte 0 holds `seq[7:0]`). -/
def recordBytes (d : DmaRecord) : List Nat :=
  (List.range 4).map (fun i => d.seq / 256 ^ i % 256) ++
  (List.range 4).map (fun i => d.reserved_lo / 256 ^ i % 256) ++
  (List.range 8).map (fun i => d.ts_ing / 256 ^ i % 256) ++
  (List.range 8).map (fun i => d.ts_dec / 256 ^ i % 256) ++
  (List.range 2).map (fun i => d.sym_idx / 256 ^ i % 256) ++
  [d.side % 256, d.flags % 256] ++
  (List.range 4).map (fun i => d.qty / 256 ^ i % 256) ++
  (List.range 4).map (fun i => d.price / 256 ^ i % 256) ++
  (List.range 4).map (fun i => d.ref_px / 256 ^ i % 256) ++
  (List.range 4).map (fun i => d.feature0 / 256 ^ i % 256) ++
  (List.range 4).map (fun i => d.feature1 / 256 ^ i % 256) ++
  (List.range 4).map (fun i => d.feature2 / 256 ^ i % 256) ++
  (List.range 2).map (fun i => d.payload_crc16 / 256 ^ i % 256) ++
  (List.range 2).map (fun i => d.pad / 256 ^ i % 256) ++
  (List.range 8).map (fun i => d.reserved_hi / 256 ^ i % 256)

/-- One iteration of the loop in `calc_crc16` of `dma_pcie_ep.sv`:
`crc = {crc[14:0], 1'b0} ^ (bit ? 16'h1021 : 16'h0000)` — the top bit of
the running value is discarded, and the polynomial is xored in whenever the
data bit is set (with no feedback from `crc[15]`). -/
def calcCrc16Step (crc : Nat) (bit : Bool) : Nat :=
  ((crc % 32768) * 2) ^^^ (if bit then 4129 else 0)

/-- Function `calc_crc16` from `dma_pcie_ep.sv`: fold `calcCrc16Step` from `16'hFFFF`
over 448 data bits, bit 0 first. -/
def calc_crc16 (bits : List Bool) : Nat :=
  bits.foldl calcCrc16Step 65535

/-- The 448 bits the DMA_BUILD state feeds to `calc_crc16`:
`record_packed[511:64]`, i.e. bit `i` of the argument is bit `64 + i` of the
packed record — bit `i % 8` of byte `8 + i / 8`.  This slice starts at byte
8 (skipping `seq` and `reserved_lo`) and runs through byte 63, so it covers
the CRC field itself (bytes 52–53). -/
def dmaCrcInputBits (bytes : List Nat) : List Bool :=
  (List.range 448).map (fun i => Nat.testBit (bytes.getD (8 + i / 8) 0)
    (i % 8))

/-- The value the DMA_BUILD state of `dma_pcie_ep.sv` writes into
`payload_crc16`, as a function of the packed record bytes. -/
def dmaCrcField (bytes : List Nat) : Nat :=
  calc_crc16 (dmaCrcInputBits bytes)

/-- One byte of `crc16_ccitt` from `t2t_pkg.sv` (and of the specification's
CRC-16-CCITT: polynomial `0x1021`, MSB-first, no reflection): xor the byte
into the high half, then eight shift-and-conditionally-xor steps. -/
def crc16CcittByte (crc b : Nat) : Nat :=
  (List.range 8).foldl
    (fun c _ =>
      if Nat.testBit c 15 then ((c * 2) % M16) ^^^ 4129
      else (c * 2) % M16)
    (crc ^^^ ((b % 256) * 256))

/-- Function `crc16_ccitt` from `t2t_pkg.sv`: CRC-16-CCITT with initial value
`0xFFFF`, no reflection and no final xor, over a list of bytes. -/
def crc16_ccitt (bytes : List Nat) : Nat :=
  bytes.foldl crc16CcittByte 65535

/-! ## Ring index management (`pcie_dma.sv`, lines 516–525) -/

/-- The ring index registers of `pcie_dma.sv`.  Both indices are
`IDX_WIDTH`-bit values in `[0, ring_size)`. -/
structure RingState where
  prod_idx : Nat
  cons_idx : Nat
deriving DecidableEq, Repr

/-- Signal `next_prod_idx = (prod_idx + 1) & (cfg_ring_size - 1)` from
`pcie_dma.sv`. -/
def next_prod_idx (size prod : Nat) : Nat :=
  (prod + 1) &&& (size - 1)

/-- Signal `ring_full = (next_prod_idx == cons_idx_sync)` from `pcie_dma.sv`. -/
def ring_full (size : Nat) (s : RingState) : Bool :=
  decide (next_prod_idx size s.prod_idx = s.cons_idx)

/-- Signal `ring_empty = (prod_idx == cons_idx_sync)` from `pcie_dma.sv`. -/
def ring_empty (s : RingState) : Bool :=
  decide (s.prod_idx = s.cons_idx)

/-- Publishing one record: the DMA state machine enters the write path only
when `!ring_full`, and DMA_UPDATE_IDX advances `prod_idx` to
`next_prod_idx`.  When the ring is full the record stays in the input FIFO
and the indices are unchanged. -/
def ringProdStep (size : Nat) (s : RingState) : RingState :=
  if ring_full size s then s
  else { s with prod_idx := next_prod_idx size s.prod_idx }

/-- Consuming one record: the host poll loop (`t2t_pcie_consumer.cpp`)
advances its consumer index only while it differs from the producer index,
i.e. only when the ring is non-empty, and the hardware masks the
CSR-written index to `IDX_WIDTH` bits. -/
def ringConsStep (size : Nat) (s : RingState) : RingState :=
  if ring_empty s then s
  else { s with cons_idx := (s.cons_idx + 1) &&& (size - 1) }

/-- The number of occupied slots of a ring of size `size`:
`(prod_idx - cons_idx) mod size`. -/
def ringOccupancy (size : Nat) (s : RingState) : Nat :=
  (s.prod_idx + size - s.cons_idx) % size

/-! ## Concrete inputs used by counterexamples and failing-input theorems -/

/-- The all-zero 64-byte record, used to evaluate the two CRC functions. -/
def zeroRecordBytes : List Nat := List.replicate 64 0

/-- A book event for a decision triggered by an Add-Order message whose
ITCH sequence number was 5: ingress timestamp `2^32 + 3` and symbol
index 7.  `book_event_t` itself carries no sequence-number field. -/
def c9Event : BookEvent :=
  ⟨4294967299, 0, 7, ⟨0, 0, 0, 0, 0, false⟩, 0, 0, true, false, false,
    ItchMsgType.itch_add_order⟩

/-- The accepted risk output wrapping `c9Event`. -/
def c9Out : RiskOutput := ⟨true, RiskReason.risk_accept, 0, c9Event⟩

/-- A book entry with bid 100 × 10, no last trade recorded. -/
def c8Entry : BookEntry := ⟨100, 10, 0, 0, 0, 0, 0, true⟩

/-- An Order-Executed-with-Price ('C') message: executed price 42,
executed shares 4, resolved to the bid side. -/
def c8Msg : ItchMsg :=
  ⟨ItchMsgType.itch_order_executed_px, Side.side_bid, 42, 4, 999⟩

/-! ## Theorems -/

/-- A zero data bit only shifts the running `calc_crc16` value:
doubling modulo 2^16. -/
lemma calcCrc16Step_false (c : Nat) : calcCrc16Step c false = 2 * c % M16 := by
  simp only [calcCrc16Step, if_neg Bool.false_ne_true, Nat.xor_zero, M16]
  omega

/-- Over all-zero data bits, `calc_crc16` just doubles modulo 2^16 at every
step. -/
lemma foldl_calcCrc16_zeros (n : Nat) : ∀ c : Nat, c < M16 →
    (List.replicate n false).foldl calcCrc16Step c = c * 2 ^ n % M16 := by
  induction n with
  | zero => intro c hc; simp [Nat.mod_eq_of_lt hc]
  | succ n ih =>
      intro c hc
      rw [List.replicate_succ, List.foldl_cons, calcCrc16Step_false,
        ih (2 * c % M16) (Nat.mod_lt _ (by decide)), Nat.mod_mul_mod]
      congr 1
      ring

/-- Every byte of the all-zero record is zero. -/
lemma zeroRecordBytes_getD (k : Nat) : zeroRecordBytes.getD k 0 = 0 := by
  rw [zeroRecordBytes, List.getD_eq_getElem?_getD, List.getElem?_replicate]
  split <;> rfl

/-- The bit slice the DMA feeds to `calc_crc16` is all-false for the
all-zero record. -/
lemma dmaCrcInputBits_zero :
    dmaCrcInputBits zeroRecordBytes = List.replicate 448 false := by
  have hcongr :
      List.map
        (fun i => Nat.testBit (zeroRecordBytes.getD (8 + i / 8) 0) (i % 8))
        (List.range 448) =
      List.map (fun _ => false) (List.range 448) :=
    List.map_congr_left (fun i _ => by
      rw [zeroRecordBytes_getD]
      exact Nat.zero_testBit _)
  rw [dmaCrcInputBits, hcongr, List.map_const', List.length_range]

/-- The value `dma_pcie_ep.sv` writes into `payload_crc16` for the
all-zero record: the shift-only update loses every bit of the `0xFFFF`
seed after 16 of the 448 steps, ending at 0. -/
lemma dmaCrcField_zeroRecord : dmaCrcField zeroRecordBytes = 0 := by
  rw [dmaCrcField, calc_crc16, dmaCrcInputBits_zero,
    foldl_calcCrc16_zeros 448 65535 (by decide)]
  have hdvd : M16 ∣ 65535 * 2 ^ 448 := by
    have h16 : M16 = 2 ^ 16 := by decide
    rw [h16]
    exact Dvd.dvd.mul_left (pow_dvd_pow 2 (by decide)) 65535
  exact Nat.mod_eq_zero_of_dvd hdvd

set_option maxRecDepth 8000 in
lemma ccitt_zeros13_a :
    (List.replicate 13 0).foldl crc16CcittByte 65535 = 10252 := by decide

set_option maxRecDepth 8000 in
lemma ccitt_zeros13_b :
    (List.replicate 13 0).foldl crc16CcittByte 10252 = 12366 := by decide

set_option maxRecDepth 8000 in
lemma ccitt_zeros13_c :
    (List.replicate 13 0).foldl crc16CcittByte 12366 = 62986 := by decide

set_option maxRecDepth 8000 in
lemma ccitt_zeros13_d :
    (List.replicate 13 0).foldl crc16CcittByte 62986 = 18053 := by decide

/-- CRC-16-CCITT of the 52 zero bytes that are bytes 0..51 of the all-zero
record. -/
lemma crc16_ccitt_zeros52 : crc16_ccitt (List.replicate 52 0) = 18053 := by
  have h : List.replicate 52 (0 : Nat) =
      List.replicate 13 0 ++ (List.replicate 13 0 ++
        (List.replicate 13 0 ++ List.replicate 13 0)) := by
    rw [← List.replicate_add, ← List.replicate_add, ← List.replicate_add]
  rw [crc16_ccitt, h, List.foldl_append, List.foldl_append,
    List.foldl_append, ccitt_zeros13_a, ccitt_zeros13_b, ccitt_zeros13_c,
    ccitt_zeros13_d]

/-- C2 (code evaluated at the failing input): the value `dma_pcie_ep.sv`
writes into `payload_crc16` for the all-zero record is not the
CRC-16-CCITT of bytes 0..51 of that record.  The source's `calc_crc16`
drops the `crc[15]` feedback, so on all-zero data it is a plain shift that
ends at 0, while the true CRC-16-CCITT of 52 zero bytes (also computed by
the unused `crc16_ccitt` in `t2t_pkg.sv`) is 18053; moreover the slice the
DMA feeds in, `record_packed[511:64]`, is bytes 8..63 (including the CRC
field itself), not bytes 0..51. -/
theorem C2_crc_mismatch_on_zero_record :
    dmaCrcField zeroRecordBytes ≠ crc16_ccitt (zeroRecordBytes.take 52) ∧
    dmaCrcField zeroRecordBytes = 0 ∧
    crc16_ccitt (zeroRecordBytes.take 52) = 18053 := by
  have ht : zeroRecordBytes.take 52 = List.replicate 52 0 := by
    rw [zeroRecordBytes, List.take_replicate]
    norm_num
  rw [ht, dmaCrcField_zeroRecord, crc16_ccitt_zeros52]
  exact ⟨by decide, rfl, rfl⟩

/-- C3 (code evaluated at the failing input): `check_not_stale` in
`risk_gate.sv` is `(age ≤ threshold) || !stale`, so an event whose stale
flag is clear passes the staleness check no matter how old it is — the
claim says such an event is rejected.  At `timestamp_cnt = 3·10^8` cycles,
`book_ts = 0`, `cfg_stale_usec = 1` (threshold 300 cycles) the check still
returns pass, and in general the age never rejects an event with a clear
stale flag. -/
theorem C3_stale_check_passes_when_flag_clear :
    check_not_stale 300000000 0 1 false = true ∧
    (∀ timestamp_cnt book_ts cfg_stale_usec : Nat,
      check_not_stale timestamp_cnt book_ts cfg_stale_usec false = true) := by
  refine ⟨by decide, ?_⟩
  intro timestamp_cnt book_ts cfg_stale_usec
  simp [check_not_stale]

/-- C4 counterexample: at `bid_px = ask_px = ref_price = 2^31` and
`price_band_bps = 1` the specification's formula (mid-price computed over
the integers) passes, but `check_price_band_ok` computes the mid-price
from the 32-bit-truncated sum `bid_px + ask_px` (the carry of the 32-bit
adder is lost), gets mid 0, and rejects. -/
theorem C4_counterexample :
    spec_price_band_pass 2147483648 2147483648 2147483648 1 = true ∧
    check_price_band_ok 2147483648 2147483648 2147483648 1 = false := by
  refine ⟨?_, ?_⟩ <;> decide

/-- The price-band predicate with the 32-bit-truncated mid-price: this is
the formula `check_price_band_ok` actually decides. -/
def truncated_mid_band_pass (bid_px ask_px ref_price cfg_price_band_bps :
    Nat) : Bool :=
  let mid := ((bid_px + ask_px) % M32) / 2
  let diff := if mid ≥ ref_price then mid - ref_price else ref_price - mid
  decide (ref_price = 0) || decide (cfg_price_band_bps = 0) ||
    decide (diff * 10000 ≤ ref_price * cfg_price_band_bps)

/-- C4 as amended: for in-range operands the price-band check passes iff
`ref_price = 0`, or `price_band_bps = 0`, or
`|mid − ref| * 10000 ≤ ref * bps` with `mid = ((bid + ask) mod 2^32) / 2`
(the 64-bit products are exact); in particular a symbol with reference
price 0 is never rejected. -/
theorem C4_price_band_characterization (bid_px ask_px ref_price bps : Nat)
    (hb : bid_px < M32) (ha : ask_px < M32) (hr : ref_price < M32)
    (hbps : bps < M16) :
    check_price_band_ok bid_px ask_px ref_price bps =
      truncated_mid_band_pass bid_px ask_px ref_price bps ∧
    (ref_price = 0 → check_price_band_ok bid_px ask_px ref_price bps =
      true) := by
  have hM64 : (0 : Nat) < M64 := by decide
  have hmid : ((bid_px + ask_px) % M32) / 2 < M32 :=
    Nat.lt_of_le_of_lt (Nat.div_le_self _ _) (Nat.mod_lt _ (by decide))
  constructor
  · simp only [check_price_band_ok, truncated_mid_band_pass,
      Nat.mod_eq_of_lt hb, Nat.mod_eq_of_lt ha, Nat.mod_eq_of_lt hr,
      Nat.mod_eq_of_lt hbps]
    have hdiff :
        (if ((bid_px + ask_px) % M32) / 2 ≥ ref_price then
           ((bid_px + ask_px) % M32) / 2 - ref_price
         else ref_price - ((bid_px + ask_px) % M32) / 2) < M32 := by
      split <;> omega
    have h1 :
        (if ((bid_px + ask_px) % M32) / 2 ≥ ref_price then
           ((bid_px + ask_px) % M32) / 2 - ref_price
         else ref_price - ((bid_px + ask_px) % M32) / 2) * 10000 < M64 := by
      have : M32 * 10000 ≤ M64 := by decide
      have := Nat.mul_le_mul_right 10000 (Nat.le_of_lt hdiff)
      omega
    have h2 : ref_price * bps < M64 :=
      Nat.lt_of_le_of_lt
        (Nat.mul_le_mul (Nat.le_of_lt hr) (Nat.le_of_lt hbps))
        (by decide)
    rw [Nat.mod_eq_of_lt h1, Nat.mod_eq_of_lt h2]
    cases hz : decide (ref_price = 0) <;>
      cases hz2 : decide (bps = 0) <;>
        simp_all [Bool.or_comm, Bool.or_assoc, Bool.or_left_comm]
  · intro h0
    subst h0
    simp [check_price_band_ok]

/-- C4 witness: the characterization applied at bid 100, ask 200,
reference price 150, band 10 bps. -/
theorem C4_witness :
    (100 < M32 ∧ 200 < M32 ∧ 150 < M32 ∧ 10 < M16) ∧
    (check_price_band_ok 100 200 150 10 =
        truncated_mid_band_pass 100 200 150 10 ∧
      ((150 : Nat) = 0 → check_price_band_ok 100 200 150 10 = true)) :=
  ⟨⟨by decide, by decide, by decide, by decide⟩,
    C4_price_band_characterization 100 200 150 10 (by decide) (by decide)
      (by decide) (by decide)⟩

/-- C7 counterexample: with sequence checking enabled, `expected_seq = 10`
and an incoming message with sequence 5, SPLIT_EMIT increments the dupes
counter as claimed, but still presents the message downstream
(`m_axis_tvalid` is asserted for every message reaching SPLIT_EMIT) and
rewrites `expected_seq` to `seq + 1 = 6` — the message is neither dropped
nor is `expected_seq` left in place. -/
theorem C7_counterexample :
    (splitEmitStep true 5 ⟨10, false, 0, 0⟩).2 = true ∧
    ((splitEmitStep true 5 ⟨10, false, 0, 0⟩).1).expected_seq = 6 ∧
    ((splitEmitStep true 5 ⟨10, false, 0, 0⟩).1).stat_seq_dupes = 1 := by
  refine ⟨?_, ?_, ?_⟩ <;> decide

/-- C7 as amended: when sequence checking is enabled and `seq <
expected_seq`, the splitter increments the dupes counter but forwards the
message anyway and sets `expected_seq` to `seq + 1`; the gap counter and
the stale latch are untouched. -/
theorem C7_dupe_forwarded (s : SplitState) (seq : Nat)
    (hlt : seq < s.expected_seq) (hseq : seq < M32) :
    splitEmitStep true seq s =
      ({ expected_seq := (seq + 1) % M32, stale_latch := s.stale_latch,
         stat_seq_gaps := s.stat_seq_gaps,
         stat_seq_dupes := (s.stat_seq_dupes + 1) % M32 }, true) := by
  have hmod : seq % M32 = seq := Nat.mod_eq_of_lt hseq
  simp only [splitEmitStep, hmod, eq_self_iff_true, if_true]
  rw [if_neg (by omega : ¬ seq > s.expected_seq), if_pos hlt]

/-- C7 witness: the amended dupe behaviour at `expected_seq = 10`,
`seq = 5`. -/
theorem C7_witness :
    ((5 : Nat) < 10 ∧ (5 : Nat) < M32) ∧
    splitEmitStep true 5 ⟨10, true, 2, 3⟩ =
      ({ expected_seq := (5 + 1) % M32, stale_latch := true,
         stat_seq_gaps := 2, stat_seq_dupes := (3 + 1) % M32 }, true) :=
  ⟨⟨by decide, by decide⟩,
    C7_dupe_forwarded ⟨10, true, 2, 3⟩ 5 (by decide) (by decide)⟩

/-- C8 counterexample: applying the 'C' (Order-Executed-with-Price)
message `c8Msg` (price 42, shares 4) to `c8Entry` reduces the bid quantity
from 10 to 6 as claimed, but leaves `last_trade_px` and `last_trade_qty`
at 0 instead of recording the executed price and shares — only 'P' trade
messages update the last-trade fields in BOOK_PROCESS. -/
theorem C8_counterexample :
    (bookProcess c8Entry c8Msg).bid_qty = 6 ∧
    (bookProcess c8Entry c8Msg).last_trade_px ≠ c8Msg.price ∧
    (bookProcess c8Entry c8Msg).last_trade_qty ≠ c8Msg.qty := by
  refine ⟨?_, ?_, ?_⟩ <;> decide

/-- C8 as amended: a 'C' message subtracts the executed quantity from the
resolved side's top-of-book quantity saturating at zero and leaves the
other side untouched, but does not record the executed price or shares:
`last_trade_px` and `last_trade_qty` are unchanged. -/
theorem C8_executed_px_update (e : BookEntry) (m : ItchMsg)
    (hm : m.msg_type = ItchMsgType.itch_order_executed_px) :
    (bookProcess e m).last_trade_px = e.last_trade_px ∧
    (bookProcess e m).last_trade_qty = e.last_trade_qty ∧
    (m.side = Side.side_bid →
      (bookProcess e m).bid_qty =
        (if m.qty < e.bid_qty then e.bid_qty - m.qty else 0) ∧
      (bookProcess e m).ask_qty = e.ask_qty) ∧
    (m.side = Side.side_ask →
      (bookProcess e m).ask_qty =
        (if m.qty < e.ask_qty then e.ask_qty - m.qty else 0) ∧
      (bookProcess e m).bid_qty = e.bid_qty) := by
  cases m with
  | mk mt sd pr q ts =>
    cases hm
    cases sd <;> simp [bookProcess]

/-- C8 witness: the amended 'C' update applied to `c8Entry` and
`c8Msg`. -/
theorem C8_witness :
    c8Msg.msg_type = ItchMsgType.itch_order_executed_px ∧
    ((bookProcess c8Entry c8Msg).last_trade_px = c8Entry.last_trade_px ∧
     (bookProcess c8Entry c8Msg).last_trade_qty = c8Entry.last_trade_qty ∧
     (c8Msg.side = Side.side_bid →
       (bookProcess c8Entry c8Msg).bid_qty =
         (if c8Msg.qty < c8Entry.bid_qty then c8Entry.bid_qty - c8Msg.qty
          else 0) ∧
       (bookProcess c8Entry c8Msg).ask_qty = c8Entry.ask_qty) ∧
     (c8Msg.side = Side.side_ask →
       (bookProcess c8Entry c8Msg).ask_qty =
         (if c8Msg.qty < c8Entry.ask_qty then c8Entry.ask_qty - c8Msg.qty
          else 0) ∧
       (bookProcess c8Entry c8Msg).bid_qty = c8Entry.bid_qty)) :=
  ⟨rfl, C8_executed_px_update c8Entry c8Msg rfl⟩

/-- A token-bucket cycle never pushes the bucket above the cycle's cap:
the replenish branch saturates at `cfg_token_max` and leaves an
already-at-cap bucket alone, and the consume branch only decrements. -/
lemma tokenStep_bucket_le (i : TokenInput) (s : TokenState)
    (h : s.token_bucket ≤ i.cfg_token_max) :
    (tokenStep i s).token_bucket ≤ i.cfg_token_max := by
  simp only [tokenStep]
  split_ifs <;> omega

/-- Under a fixed cap, any run of token-bucket cycles preserves
`token_bucket ≤ max`. -/
lemma tokenRun_bucket_le_aux (max : Nat) (is : List TokenInput) :
    ∀ s : TokenState, (∀ j ∈ is, j.cfg_token_max = max) →
      s.token_bucket ≤ max →
      (is.foldl (fun s i => tokenStep i s) s).token_bucket ≤ max := by
  induction is with
  | nil => intro s _ h; exact h
  | cons i is ih =>
      intro s hmax h
      rw [List.foldl_cons]
      refine ih _ (fun j hj => hmax j (List.mem_cons_of_mem _ hj)) ?_
      have hi : i.cfg_token_max = max := hmax i (List.mem_cons_self _ _)
      have hle := tokenStep_bucket_le i s (by rw [hi]; exact h)
      rw [hi] at hle
      exact hle

/-- C5: with a fixed configured cap, the token count after any run from
reset never exceeds `token_bucket_max`; the token check passes iff
`tokens > 0`; an accepted decision consumes exactly one token; and a cycle
with no accepted decision and no replenish tick leaves the token count
unchanged (a rejected decision never modifies it). -/
theorem C5_token_bucket_invariant (max : Nat) (is : List TokenInput)
    (i : TokenInput) (s : TokenState)
    (hmax : ∀ j ∈ is, j.cfg_token_max = max) :
    (tokenRun is).token_bucket ≤ max ∧
    check_token_ok s = decide (0 < s.token_bucket) ∧
    (i.consume = true → 0 < s.token_bucket →
      (tokenStep i s).token_bucket = s.token_bucket - 1) ∧
    (i.consume = false →
      s.token_replenish_cnt < TOKEN_REPLENISH_CYCLES - 1 →
      (tokenStep i s).token_bucket = s.token_bucket) := by
  refine ⟨tokenRun_bucket_le_aux max is tokenReset hmax (by
    simp [tokenReset]), rfl, ?_, ?_⟩
  · intro hc h
    simp only [tokenStep]
    rw [if_pos ⟨hc, h⟩]
  · intro hc hcnt
    simp only [tokenStep]
    rw [if_neg (fun hh => by rw [hc] at hh; exact Bool.false_ne_true hh.1),
      if_neg (by omega : ¬ s.token_replenish_cnt ≥
        TOKEN_REPLENISH_CYCLES - 1)]

/-- C5 witness: the invariant applied to a two-cycle run with cap 3 and to
a consume cycle from the state `⟨2, 5⟩`. -/
theorem C5_witness :
    (∀ j ∈ ([⟨1, 3, false⟩, ⟨1, 3, true⟩] : List TokenInput),
      j.cfg_token_max = 3) ∧
    ((tokenRun [⟨1, 3, false⟩, ⟨1, 3, true⟩]).token_bucket ≤ 3 ∧
     check_token_ok ⟨2, 5⟩ =
        decide (0 < (⟨2, 5⟩ : TokenState).token_bucket) ∧
     ((⟨1, 3, true⟩ : TokenInput).consume = true →
       0 < (⟨2, 5⟩ : TokenState).token_bucket →
       (tokenStep ⟨1, 3, true⟩ ⟨2, 5⟩).token_bucket =
         (⟨2, 5⟩ : TokenState).token_bucket - 1) ∧
     ((⟨1, 3, true⟩ : TokenInput).consume = false →
       (⟨2, 5⟩ : TokenState).token_replenish_cnt <
         TOKEN_REPLENISH_CYCLES - 1 →
       (tokenStep ⟨1, 3, true⟩ ⟨2, 5⟩).token_bucket =
         (⟨2, 5⟩ : TokenState).token_bucket)) :=
  ⟨by decide,
    C5_token_bucket_invariant 3 [⟨1, 3, false⟩, ⟨1, 3, true⟩]
      ⟨1, 3, true⟩ ⟨2, 5⟩ (by decide)⟩

/-- Before the first replenish tick the token bucket stays empty and only
the cycle counter advances. -/
lemma tokenRun_quiescent (is : List TokenInput) :
    ∀ j : Nat, j + is.length ≤ TOKEN_REPLENISH_CYCLES - 1 →
      is.foldl (fun s i => tokenStep i s) ⟨0, j⟩ =
        ⟨0, j + is.length⟩ := by
  induction is with
  | nil => intro j h; simp
  | cons i is ih =>
      intro j h
      rw [List.foldl_cons]
      have hlen : (i :: is).length = is.length + 1 := List.length_cons i is
      have hstep : tokenStep i ⟨0, j⟩ = ⟨0, j + 1⟩ := by
        simp only [tokenStep]
        rw [if_neg (fun hh => by exact absurd hh.2 (by omega)),
          if_neg (by rw [hlen] at h; omega : ¬ j ≥ TOKEN_REPLENISH_CYCLES -
            1)]
      rw [hstep, ih (j + 1) (by rw [hlen] at h; omega)]
      rw [hlen]
      congr 1
      omega

/-- C10: after reset, any run shorter than `TOKEN_REPLENISH_CYCLES`
(1 ms of 300 MHz cycles) leaves the token bucket at zero, so the token
check fails, RISK_DECIDE cannot accept, and when the kill, staleness,
sequence-gap and price-band checks all pass the rejection reason is the
token bucket. -/
theorem C10_no_accept_before_first_replenish (is : List TokenInput)
    (c : RiskChecks) (h : is.length < TOKEN_REPLENISH_CYCLES)
    (htok : c.token_ok = check_token_ok (tokenRun is)) :
    (tokenRun is).token_bucket = 0 ∧
    (riskDecide c).1 = false ∧
    (c.not_killed = true → c.not_stale = true → c.no_seq_gap = true →
      c.price_band_ok = true →
      (riskDecide c).2 = RiskReason.risk_token_bucket) := by
  have hrun : tokenRun is = ⟨0, is.length⟩ := by
    rw [tokenRun]
    have := tokenRun_quiescent is 0 (by omega)
    simpa using this
  have htok' : c.token_ok = false := by rw [htok, hrun]; rfl
  obtain ⟨nk, ns, ng, pb, tok, pos⟩ := c
  simp only at htok'
  subst htok'
  refine ⟨by rw [hrun], by simp [riskDecide], ?_⟩
  intro h1 h2 h3 h4
  simp only at h1 h2 h3 h4
  subst h1; subst h2; subst h3; subst h4
  simp [riskDecide]

/-- C10 witness: a single-cycle run after reset with all other checks
passing. -/
theorem C10_witness :
    (([⟨1, 3, false⟩] : List TokenInput).length < TOKEN_REPLENISH_CYCLES ∧
     (⟨true, true, true, true, check_token_ok (tokenRun [⟨1, 3, false⟩]),
        true⟩ : RiskChecks).token_ok =
       check_token_ok (tokenRun [⟨1, 3, false⟩])) ∧
    ((tokenRun [⟨1, 3, false⟩]).token_bucket = 0 ∧
     (riskDecide ⟨true, true, true, true,
        check_token_ok (tokenRun [⟨1, 3, false⟩]), true⟩).1 = false ∧
     ((⟨true, true, true, true, check_token_ok (tokenRun [⟨1, 3, false⟩]),
          true⟩ : RiskChecks).not_killed = true →
       (⟨true, true, true, true, check_token_ok (tokenRun [⟨1, 3, false⟩]),
          true⟩ : RiskChecks).not_stale = true →
       (⟨true, true, true, true, check_token_ok (tokenRun [⟨1, 3, false⟩]),
          true⟩ : RiskChecks).no_seq_gap = true →
       (⟨true, true, true, true, check_token_ok (tokenRun [⟨1, 3, false⟩]),
          true⟩ : RiskChecks).price_band_ok = true →
       (riskDecide ⟨true, true, true, true,
          check_token_ok (tokenRun [⟨1, 3, false⟩]), true⟩).2 =
         RiskReason.risk_token_bucket)) :=
  ⟨⟨by decide, rfl⟩,
    C10_no_accept_before_first_replenish [⟨1, 3, false⟩] _ (by decide) rfl⟩

/-- A SPLIT_EMIT transition never clears an asserted stale latch: the gap
branch sets it and every other branch leaves it unchanged. -/
lemma splitEmitStep_latch_mono (en : Bool) (seq : Nat) (s : SplitState)
    (h : s.stale_latch = true) :
    ((splitEmitStep en seq s).1).stale_latch = true := by
  simp only [splitEmitStep]
  split_ifs <;> simp [h]

/-- C6 counterexample: starting from `expected_seq = 1` with the latch
clear, the message with sequence 5 opens a gap and sets the latch; the ten
consecutive in-order messages 6..15 then catch the sequence up with no
further gap (the gap counter stays at 1), and a final message with
sequence checking disabled follows — yet the final state still has the
stale latch set.  Likewise a message at sequence
16 = 6 + 10 (= post-gap `expected_seq` + a gap threshold of 10) leaves it
set.  Nothing but reset clears the latch: the splitter has no
`seq_gap_threshold` input at all. -/
theorem C6_counterexample :
    splitRun [(true, 5), (true, 6), (true, 7), (true, 8), (true, 9),
      (true, 10), (true, 11), (true, 12), (true, 13), (true, 14),
      (true, 15), (false, 16)] ⟨1, false, 0, 0⟩ = ⟨16, true, 1, 0⟩ ∧
    (splitRun [(true, 5), (true, 16)] ⟨1, false, 0, 0⟩).stale_latch =
      true := by
  refine ⟨?_, ?_⟩ <;> decide

/-- C6 as amended: once the stale latch is asserted it stays asserted on
every subsequent outgoing frame, whatever messages follow (catching up,
any sequence value, or sequence checking disabled); only reset clears
it. -/
theorem C6_stale_latch_never_cleared (msgs : List (Bool × Nat))
    (s : SplitState) (h : s.stale_latch = true) :
    (splitRun msgs s).stale_latch = true := by
  induction msgs generalizing s with
  | nil => simpa [splitRun] using h
  | cons m ms ih =>
      rw [splitRun, List.foldl_cons]
      exact ih _ (splitEmitStep_latch_mono m.1 m.2 s h)

/-- C6 witness: the latch persists across an in-order message and one with
sequence checking disabled. -/
theorem C6_witness :
    (⟨6, true, 1, 0⟩ : SplitState).stale_latch = true ∧
    (splitRun [(true, 6), (false, 7)] ⟨6, true, 1, 0⟩).stale_latch =
      true :=
  ⟨rfl, C6_stale_latch_never_cleared [(true, 6), (false, 7)]
    ⟨6, true, 1, 0⟩ rfl⟩

/-- C9 (code evaluated at the failing input): for a decision whose
triggering message had ITCH sequence number 5, ingress timestamp
`2^32 + 3` and symbol index 7, the `dma_pcie_ep` variant writes
`seq = ingress_ts[31:0] = 3` and the `pcie_dma` variant writes
`seq = symbol_idx = 7`; the two variants disagree with each other, neither
equals the ITCH sequence number, and `book_event_t` does not even carry
that number into either DMA block. -/
theorem C9_seq_field_divergence :
    (dmaRecordBuild c9Out).seq = 3 ∧
    (pcieDmaRecordBuild c9Out).seq = 7 ∧
    (dmaRecordBuild c9Out).seq ≠ (pcieDmaRecordBuild c9Out).seq := by
  refine ⟨?_, ?_, ?_⟩ <;> decide

/-- C1 counterexample: in a ring of size 8 with `prod_idx = 7` and
`cons_idx = 0`, the hardware reports full (`next_prod_idx` would meet the
consumer) although `producer − consumer = 7` is not the ring length — the
`pcie_dma` ring keeps one slot reserved and is full at occupancy
`ring_size − 1`, and in that state a new record is not accepted. -/
theorem C1_counterexample :
    ring_full 8 ⟨7, 0⟩ = true ∧ (7 : Nat) - 0 ≠ 8 ∧
    ringOccupancy 8 ⟨7, 0⟩ = 7 ∧ ringProdStep 8 ⟨7, 0⟩ = ⟨7, 0⟩ := by
  refine ⟨?_, ?_, ?_, ?_⟩ <;> decide

/-- Incrementing an in-range index under the power-of-two mask wraps to 0
exactly at the ring size. -/
lemma succ_mask_eq (k x : Nat) (hx : x < 2 ^ k) :
    (x + 1) &&& (2 ^ k - 1) = if x + 1 = 2 ^ k then 0 else x + 1 := by
  rw [Nat.and_pow_two_sub_one_eq_mod]
  by_cases h : x + 1 = 2 ^ k
  · rw [if_pos h, h, Nat.mod_self]
  · rw [if_neg h, Nat.mod_eq_of_lt (by omega)]

/-- Closed form of the occupancy for in-range indices. -/
lemma ringOccupancy_closed (n p c : Nat) (hn : 0 < n) (hp : p < n)
    (hc : c < n) :
    ringOccupancy n ⟨p, c⟩ = if c ≤ p then p - c else p + n - c := by
  rw [ringOccupancy]
  dsimp only
  rcases le_or_lt c p with h | h
  · rw [if_pos h]
    have he : p + n - c = p - c + n := by omega
    rw [he, Nat.add_mod_right, Nat.mod_eq_of_lt (by omega)]
  · rw [if_neg (by omega)]
    exact Nat.mod_eq_of_lt (by omega)

/-- C1 as amended: for a power-of-two ring size and in-range indices, the
`pcie_dma` ring is empty iff the occupancy `(prod − cons) mod size` is 0
and full iff it is `size − 1` (one slot is reserved to distinguish full
from empty); the occupancy never exceeds `size − 1`; a publish step is
accepted exactly when the ring is not full, raising the occupancy by one,
and is refused (indices unchanged) when it is full; a consume step when
non-empty lowers the occupancy by one. -/
theorem C1_ring_characterization (k p c : Nat) (hk : 0 < k)
    (hp : p < 2 ^ k) (hc : c < 2 ^ k) :
    (ring_empty ⟨p, c⟩ = true ↔ ringOccupancy (2 ^ k) ⟨p, c⟩ = 0) ∧
    (ring_full (2 ^ k) ⟨p, c⟩ = true ↔
      ringOccupancy (2 ^ k) ⟨p, c⟩ = 2 ^ k - 1) ∧
    ringOccupancy (2 ^ k) ⟨p, c⟩ ≤ 2 ^ k - 1 ∧
    (ring_full (2 ^ k) ⟨p, c⟩ = false →
      ringOccupancy (2 ^ k) (ringProdStep (2 ^ k) ⟨p, c⟩) =
        ringOccupancy (2 ^ k) ⟨p, c⟩ + 1) ∧
    (ring_full (2 ^ k) ⟨p, c⟩ = true →
      ringProdStep (2 ^ k) ⟨p, c⟩ = ⟨p, c⟩) ∧
    (ring_empty ⟨p, c⟩ = false →
      ringOccupancy (2 ^ k) (ringConsStep (2 ^ k) ⟨p, c⟩) =
        ringOccupancy (2 ^ k) ⟨p, c⟩ - 1) := by
  have hn : 2 ≤ 2 ^ k := by
    calc 2 = 2 ^ 1 := (pow_one 2).symm
    _ ≤ 2 ^ k := Nat.pow_le_pow_right (by omega) hk
  have hocc := ringOccupancy_closed (2 ^ k) p c (by omega) hp hc
  have hnext : next_prod_idx (2 ^ k) p =
      if p + 1 = 2 ^ k then 0 else p + 1 := by
    rw [next_prod_idx, succ_mask_eq k p hp]
  refine ⟨?_, ?_, ?_, ?_, ?_, ?_⟩
  · rw [ring_empty, decide_eq_true_eq, hocc]
    dsimp only
    constructor
    · intro h
      split_ifs <;> omega
    · intro h
      split_ifs at h <;> omega
  · rw [ring_full, decide_eq_true_eq, hocc]
    dsimp only
    rw [hnext]
    constructor
    · intro h
      split_ifs at h ⊢ <;> omega
    · intro h
      split_ifs at h ⊢ <;> omega
  · rw [hocc]
    split_ifs <;> omega
  · intro hfull
    have hne : ¬ next_prod_idx (2 ^ k) p = c := by
      rw [ring_full] at hfull
      exact of_decide_eq_false hfull
    rw [ringProdStep, if_neg (fun hh => by
      rw [hfull] at hh
      exact Bool.false_ne_true hh)]
    have hp2 : next_prod_idx (2 ^ k) p < 2 ^ k := by
      rw [hnext]
      split_ifs <;> omega
    show ringOccupancy (2 ^ k) ⟨next_prod_idx (2 ^ k) p, c⟩ =
      ringOccupancy (2 ^ k) ⟨p, c⟩ + 1
    rw [ringOccupancy_closed (2 ^ k) _ c (by omega) hp2 hc, hocc]
    rw [hnext] at hne ⊢
    split_ifs at hne ⊢ <;> omega
  · intro hfull
    rw [ringProdStep, if_pos hfull]
  · intro hempty
    have hne : ¬ p = c := by
      rw [ring_empty] at hempty
      exact of_decide_eq_false hempty
    rw [ringConsStep, if_neg (fun hh => by
      rw [hempty] at hh
      exact Bool.false_ne_true hh)]
    have hc2 : (c + 1) &&& (2 ^ k - 1) < 2 ^ k := by
      rw [succ_mask_eq k c hc]
      split_ifs <;> omega
    show ringOccupancy (2 ^ k) ⟨p, (c + 1) &&& (2 ^ k - 1)⟩ =
      ringOccupancy (2 ^ k) ⟨p, c⟩ - 1
    rw [ringOccupancy_closed (2 ^ k) p _ (by omega) hp hc2, hocc]
    rw [succ_mask_eq k c hc]
    split_ifs <;> omega

/-- C1 witness: the amended characterization in a size-8 ring with
`prod_idx = 2`, `cons_idx = 7`. -/
theorem C1_witness :
    (0 < 3 ∧ 2 < 2 ^ 3 ∧ 7 < 2 ^ 3) ∧
    ((ring_empty ⟨2, 7⟩ = true ↔ ringOccupancy (2 ^ 3) ⟨2, 7⟩ = 0) ∧
     (ring_full (2 ^ 3) ⟨2, 7⟩ = true ↔
       ringOccupancy (2 ^ 3) ⟨2, 7⟩ = 2 ^ 3 - 1) ∧
     ringOccupancy (2 ^ 3) ⟨2, 7⟩ ≤ 2 ^ 3 - 1 ∧
     (ring_full (2 ^ 3) ⟨2, 7⟩ = false →
       ringOccupancy (2 ^ 3) (ringProdStep (2 ^ 3) ⟨2, 7⟩) =
         ringOccupancy (2 ^ 3) ⟨2, 7⟩ + 1) ∧
     (ring_full (2 ^ 3) ⟨2, 7⟩ = true →
       ringProdStep (2 ^ 3) ⟨2, 7⟩ = ⟨2, 7⟩) ∧
     (ring_empty ⟨2, 7⟩ = false →
       ringOccupancy (2 ^ 3) (ringConsStep (2 ^ 3) ⟨2, 7⟩) =
         ringOccupancy (2 ^ 3) ⟨2, 7⟩ - 1)) :=
  ⟨⟨by decide, by decide, by decide⟩,
    C1_ring_characterization 3 2 7 (by decide) (by decide) (by decide)⟩

end T2T
